import Mathlib

/-!
Verification of the gds-budgetarian storefront logic.

Shallow embedding of the order status/notification workflow, the checkout
flow, the email-verification flow and the analytics aggregation, translated
from the TypeScript sources.  Wall-clock times are modelled as natural
numbers (epoch milliseconds), currency amounts as integers, and the hosted
document store as association lists from document ids to records.
-/

set_option autoImplicit false

namespace GDS

/-- The five order statuses of `src/types/index.ts`. -/
inductive OrderStatus where
  | pending
  | processing
  | shipped
  | delivered
  | cancelled
deriving DecidableEq

/-- A `statusHistory` entry: `{status, timestamp, updatedBy}`
(`StatusHistory` in `src/types/index.ts`). -/
structure StatusHistory where
  status : OrderStatus
  timestamp : Nat
  updatedBy : String
deriving DecidableEq

/-- A cart line item (`CartItem` in `src/types/index.ts`). -/
structure CartItem where
  productId : String
  variantId : String
  quantity : Nat
  price : Int
deriving DecidableEq

/-- The order record as the staff dashboard sees it (`Order` in
`src/types/index.ts`, fields relevant to the verified logic; the
`statusHistory` field is optional in the TypeScript interface). -/
structure Order where
  id : String
  userId : String
  items : List CartItem
  status : OrderStatus
  total : Int
  createdAt : Nat
  updatedAt : Nat
  statusHistory : Option (List StatusHistory)
deriving DecidableEq

/-- The notification record of `src/lib/notifications.ts`
(`NotificationData`); the optional `metadata` object is flattened into
three optional fields. -/
structure NotificationData where
  type : String
  orderId : String
  message : String
  recipientRole : String
  read : Bool
  createdAt : Nat
  metadataCustomerName : Option String
  metadataOrderTotal : Option Int
  metadataPaymentMethod : Option String
deriving DecidableEq

/-- The fields written back to the order document by `updateOrderStatus`
(the `updateDoc` payload in the staff dashboard). -/
structure OrderWrite where
  status : OrderStatus
  updatedAt : Nat
  statusHistory : List StatusHistory
deriving DecidableEq

/-- Everything `updateOrderStatus` produces: the document write, the new
local order list, and the notification documents it creates (the source
function contains no notification write, which the trace records as an
empty list). -/
structure UpdateOutcome where
  write : OrderWrite
  newOrders : List Order
  notificationWrites : List NotificationData
deriving DecidableEq

/-- JavaScript `user?.email || 'staff'`: a missing user or an empty email
string falls back to `"staff"`. -/
def updatedByOf (userEmail : Option String) : String :=
  match userEmail with
  | some e => if e = "" then ("staff") else e
  | none => "staff"

/-- `updateOrderStatus` from the staff dashboard: look up the order, build
one new history entry, append it to the existing history (or to `[]` when
the order has none), and write status, `updatedAt` and the extended
history back; the local list is updated in the same way.  No notification
document is created. -/
def updateOrderStatus (orders : List Order) (orderId : String)
    (newStatus : OrderStatus) (now : Nat) (userEmail : Option String) :
    Option UpdateOutcome :=
  match orders.find? (fun o => o.id == orderId) with
  | none => none
  | some order =>
    let newHistoryEntry : StatusHistory :=
      { status := newStatus, timestamp := now, updatedBy := updatedByOf userEmail }
    let existingHistory := order.statusHistory.getD []
    let updatedHistory := existingHistory ++ [newHistoryEntry]
    some
      { write :=
          { status := newStatus, updatedAt := now, statusHistory := updatedHistory }
        newOrders :=
          orders.map fun o =>
            if o.id == orderId then
              { o with status := newStatus, updatedAt := now,
                       statusHistory := some updatedHistory }
            else o
        notificationWrites := [] }

/-- A sample order used to instantiate the theorems on concrete data. -/
def sampleOrder : Order :=
  { id := "o1"
    userId := "u1"
    items := [{ productId := "p1", variantId := "v1", quantity := 2, price := 50 }]
    status := OrderStatus.delivered
    total := 100
    createdAt := 10
    updatedAt := 10
    statusHistory :=
      some [{ status := OrderStatus.pending, timestamp := 10, updatedBy := "system" }] }

/-- Claim C1: a staff/admin status update writes back a status history equal
to the previous history with exactly one new entry appended at the end, the
entry being built from the target status, the current time and the updating
user; in particular every previously recorded entry is unchanged. -/
theorem updateOrderStatus_appends
    (orders : List Order) (orderId : String) (newStatus : OrderStatus)
    (now : Nat) (userEmail : Option String) (order : Order)
    (h : orders.find? (fun o => o.id == orderId) = some order) :
    ∃ r, updateOrderStatus orders orderId newStatus now userEmail = some r ∧
      r.write.statusHistory =
        order.statusHistory.getD [] ++
          [{ status := newStatus, timestamp := now,
             updatedBy := updatedByOf userEmail }] ∧
      r.write.statusHistory.take (order.statusHistory.getD []).length =
        order.statusHistory.getD [] := by
  unfold updateOrderStatus
  rw [h]
  exact ⟨_, rfl, rfl, List.take_left _ _⟩

/-- Witness for C1 at a concrete order. -/
theorem updateOrderStatus_appends_witness :
    [sampleOrder].find? (fun o => o.id == "o1") = some sampleOrder ∧
    ∃ r, updateOrderStatus [sampleOrder] "o1" OrderStatus.processing 42 (some ("a@b.c"))
        = some r ∧
      r.write.statusHistory =
        sampleOrder.statusHistory.getD [] ++
          [{ status := OrderStatus.processing, timestamp := 42,
             updatedBy := updatedByOf (some ("a@b.c")) }] ∧
      r.write.statusHistory.take (sampleOrder.statusHistory.getD []).length =
        sampleOrder.statusHistory.getD [] :=
  ⟨by decide,
   updateOrderStatus_appends [sampleOrder] "o1" OrderStatus.processing 42
     (some ("a@b.c")) sampleOrder (by decide)⟩

/-- Claim C2: no transition ordering is enforced: whatever the current
status of the order, a staff/admin update to any target status among the
five is accepted and sets the status to the target (the transition relation
is the complete graph over the five statuses). -/
theorem updateOrderStatus_complete_graph
    (orders : List Order) (orderId : String) (current target : OrderStatus)
    (now : Nat) (userEmail : Option String) (order : Order)
    (hfind : orders.find? (fun o => o.id == orderId) = some order)
    (hcur : order.status = current) :
    ∃ r, updateOrderStatus orders orderId target now userEmail = some r ∧
      r.write.status = target := by
  unfold updateOrderStatus
  rw [hfind]
  exact ⟨_, rfl, rfl⟩

/-- Witness for C2: a delivered order may be set straight back to pending. -/
theorem updateOrderStatus_complete_graph_witness :
    [sampleOrder].find? (fun o => o.id == "o1") = some sampleOrder ∧
    sampleOrder.status = OrderStatus.delivered ∧
    ∃ r, updateOrderStatus [sampleOrder] "o1" OrderStatus.pending 42 none = some r ∧
      r.write.status = OrderStatus.pending :=
  ⟨by decide, by decide,
   updateOrderStatus_complete_graph [sampleOrder] "o1" OrderStatus.delivered
     OrderStatus.pending 42 none sampleOrder (by decide) (by decide)⟩

/-- Claim C3 counterexample: a concrete status update succeeds and extends
the status history, yet creates no notification document at all — the
staff dashboard `updateOrderStatus` contains no notification write, and
`createOrderUpdateNotification` is never called anywhere in the sources. -/
theorem updateOrderStatus_no_notification_cex :
    ∃ r, updateOrderStatus [sampleOrder] "o1" OrderStatus.processing 42 (some ("a@b.c"))
        = some r ∧
      r.write.statusHistory ≠ [] ∧
      r.notificationWrites = [] ∧ ¬ ∃ n, n ∈ r.notificationWrites := by
  exact ⟨_, rfl, by decide, rfl, by simp⟩

/-- Claim C3 (amended): every order status update appends exactly one entry
to the status history field, but creates no derived notification document;
notification fan-out happens only at order creation. -/
theorem updateOrderStatus_append_no_notification
    (orders : List Order) (orderId : String) (newStatus : OrderStatus)
    (now : Nat) (userEmail : Option String) (order : Order)
    (h : orders.find? (fun o => o.id == orderId) = some order) :
    ∃ r, updateOrderStatus orders orderId newStatus now userEmail = some r ∧
      r.write.statusHistory =
        order.statusHistory.getD [] ++
          [{ status := newStatus, timestamp := now,
             updatedBy := updatedByOf userEmail }] ∧
      r.notificationWrites = [] := by
  unfold updateOrderStatus
  rw [h]
  exact ⟨_, rfl, rfl, rfl⟩

/-- Witness for the amended C3 at a concrete order. -/
theorem updateOrderStatus_append_no_notification_witness :
    [sampleOrder].find? (fun o => o.id == "o1") = some sampleOrder ∧
    ∃ r, updateOrderStatus [sampleOrder] "o1" OrderStatus.shipped 77 none = some r ∧
      r.write.statusHistory =
        sampleOrder.statusHistory.getD [] ++
          [{ status := OrderStatus.shipped, timestamp := 77,
             updatedBy := updatedByOf none }] ∧
      r.notificationWrites = [] :=
  ⟨by decide,
   updateOrderStatus_append_no_notification [sampleOrder] "o1" OrderStatus.shipped
     77 none sampleOrder (by decide)⟩

/-! ## Checkout and notifications

Embedding of `Checkout.validate`, `Checkout.handleSubmit` and
`createNewOrderNotification` (`src/lib/notifications.ts`).  Document-store
effects are recorded as an explicit write trace; the possible failure of a
write is modelled by a boolean flag for each write the code performs. -/

/-- The checkout form fields used by validation and order creation; absent
optional inputs are empty strings, as in the React form state. -/
structure CheckoutForm where
  firstName : String
  lastName : String
  email : String
  phone : String
  address : String
  city : String
  zipCode : String
  paymentMethod : String
  gcashNumber : String
  validIdUrl : String
deriving DecidableEq

/-- Splits a character list at every occurrence of the separator; the
second argument accumulates the current (reversed) segment. -/
def splitOnChar (sep : Char) : List Char → List Char → List (List Char)
  | [], acc => [acc.reverse]
  | c :: cs, acc =>
    if c == sep then acc.reverse :: splitOnChar sep cs []
    else splitOnChar sep cs (c :: acc)

/-- The regex `[^\s@]+@[^\s@]+\.[^\s@]+` anchored at both ends: exactly one
at-sign, a nonempty whitespace-free local part, and a nonempty
whitespace-free domain containing a dot that is neither its first nor its
last character. -/
def validateEmail (email : String) : Bool :=
  match splitOnChar '@' email.toList [] with
  | [lp, dp] =>
    !lp.isEmpty && lp.all (fun c => !c.isWhitespace) &&
    !dp.isEmpty && dp.all (fun c => !c.isWhitespace) &&
    ((dp.drop 1).dropLast.contains '.')
  | _ => false

/-- The regex `09\d9` anchored at both ends: eleven digits starting with
the two characters `09`. -/
def validatePhone (phone : String) : Bool :=
  match phone.toList with
  | '0' :: '9' :: rest => rest.length == 9 && rest.all Char.isDigit
  | _ => false

/-- Same pattern as `validatePhone`, applied to the GCash number. -/
def validateGCash (number : String) : Bool :=
  match number.toList with
  | '0' :: '9' :: rest => rest.length == 9 && rest.all Char.isDigit
  | _ => false

/-- `Checkout.validate`: the list of error keys; the form is accepted when
the list is empty.  JavaScript falsiness of a missing text input is
modelled as equality with the empty string. -/
def validate (f : CheckoutForm) : List String :=
  (if f.firstName = "" then ["firstName"] else []) ++
  (if f.lastName = "" then ["lastName"] else []) ++
  (if f.email = "" then ["email"]
   else if !validateEmail f.email then ["emailInvalid"] else []) ++
  (if f.phone = "" then ["phone"]
   else if !validatePhone f.phone then ["phoneInvalid"] else []) ++
  (if f.address = "" then ["address"] else []) ++
  (if f.city = "" then ["city"] else []) ++
  (if f.zipCode = "" then ["zipCode"] else []) ++
  (if f.paymentMethod = "gcash" then
    (if f.gcashNumber = "" then ["gcashNumber"]
     else if !validateGCash f.gcashNumber then ["gcashNumberInvalid"] else [])
   else []) ++
  (if f.paymentMethod = "cod" ∧ f.validIdUrl = "" then ["validId"] else [])

/-- The order document written by `Checkout.handleSubmit`.  The source
stores `productIds` as a bare string when the cart has a single item; it is
modelled uniformly as a list. -/
structure OrderDoc where
  firstName : String
  lastName : String
  email : String
  phone : String
  address : String
  city : String
  zipCode : String
  paymentMethod : String
  gcashNumber : String
  validIdUrl : String
  userId : String
  isDelivered : Bool
  productIds : List String
  items : List CartItem
  subtotal : Int
  shipping : Int
  total : Int
  status : OrderStatus
  createdAt : Nat
  statusHistory : List StatusHistory
deriving DecidableEq

/-- The `orderData` object built by `Checkout.handleSubmit` before the
`addDoc` call: the form spread plus user id, cart snapshot, totals, the
initial `pending` status and a one-entry system status history. -/
def orderDataOf (f : CheckoutForm) (cartItems : List CartItem) (userId : String)
    (subtotal shipping total : Int) (now : Nat) : OrderDoc :=
  { firstName := f.firstName, lastName := f.lastName, email := f.email,
    phone := f.phone, address := f.address, city := f.city,
    zipCode := f.zipCode, paymentMethod := f.paymentMethod,
    gcashNumber := f.gcashNumber, validIdUrl := f.validIdUrl,
    userId := userId, isDelivered := false,
    productIds := cartItems.map (fun item => item.productId),
    items := cartItems, subtotal := subtotal, shipping := shipping,
    total := total, status := OrderStatus.pending, createdAt := now,
    statusHistory :=
      [{ status := OrderStatus.pending, timestamp := now, updatedBy := "system" }] }

/-- A single document write issued during checkout, in program order. -/
inductive WriteOp where
  | orderDoc (o : OrderDoc)
  | notificationDoc (n : NotificationData)
deriving DecidableEq

/-- Currency amounts are modelled as integral pesos, so the source
`total.toFixed(2)` renders two zero cents. -/
def pesoFixed2 (amount : Int) : String :=
  toString amount ++ ".00"

/-- JavaScript template fallback of `createNewOrderNotification`: the
joined first and last names, trimmed, with `"Customer"` replacing an empty
result. -/
def customerNameOf (orderData : OrderDoc) : String :=
  let joined := (orderData.firstName ++ " " ++ orderData.lastName).trim
  if joined = "" then ("Customer") else joined

/-- The `notification` object built by `createNewOrderNotification`. -/
def newOrderNotificationDoc (orderId : String) (orderData : OrderDoc)
    (now : Nat) : NotificationData :=
  let customerName := customerNameOf orderData
  let total := orderData.total
  { type := "new_order", orderId := orderId,
    message := "New order from " ++ customerName ++ " - PHP " ++ pesoFixed2 total,
    recipientRole := "both", read := false, createdAt := now,
    metadataCustomerName := some customerName,
    metadataOrderTotal := some total,
    metadataPaymentMethod := some orderData.paymentMethod }

/-- `createNewOrderNotification`: builds the `new_order` notification and
attempts exactly one `addDoc`; its own try/catch swallows a write failure,
so it returns the list of successfully written documents (empty on
failure) together with the number of write attempts, and never throws. -/
def createNewOrderNotification (orderId : String) (orderData : OrderDoc)
    (now : Nat) (writeOk : Bool) : List NotificationData × Nat :=
  if writeOk then ([newOrderNotificationDoc orderId orderData now], 1) else ([], 1)

/-- What `Checkout.handleSubmit` leaves behind: the success flag (toast and
redirect), the write trace, the cart contents afterwards, and how many
notification write attempts were made. -/
structure CheckoutOutcome where
  success : Bool
  writes : List WriteOp
  cartAfter : List CartItem
  notificationAttempts : Nat
deriving DecidableEq

/-- `Checkout.handleSubmit`: reject the form when validation reports
errors; otherwise write the order document, then call
`createNewOrderNotification` (whose failure is invisible here), then clear
the cart and report success.  A failing order write is caught and leaves
the cart untouched with no success toast. -/
def handleSubmit (f : CheckoutForm) (cartItems : List CartItem) (userId : String)
    (subtotal shipping total : Int) (now : Nat) (newOrderId : String)
    (orderWriteOk notifWriteOk : Bool) : CheckoutOutcome :=
  if validate f ≠ [] then
    { success := false, writes := [], cartAfter := cartItems,
      notificationAttempts := 0 }
  else
    let orderData := orderDataOf f cartItems userId subtotal shipping total now
    if orderWriteOk then
      let notifResult := createNewOrderNotification newOrderId orderData now notifWriteOk
      { success := true,
        writes := WriteOp.orderDoc orderData :: notifResult.1.map WriteOp.notificationDoc,
        cartAfter := [],
        notificationAttempts := notifResult.2 }
    else
      { success := false, writes := [], cartAfter := cartItems,
        notificationAttempts := 0 }

/-- A concrete form that passes checkout validation. -/
def sampleForm : CheckoutForm :=
  { firstName := "Ana", lastName := "Cruz", email := "ana@mail.com",
    phone := "09123456789", address := "1 Main St", city := "Cebu",
    zipCode := "6000", paymentMethod := "gcash", gcashNumber := "09171234567",
    validIdUrl := "" }

/-- A concrete one-item cart. -/
def sampleCart : List CartItem :=
  [{ productId := "p1", variantId := "v1", quantity := 2, price := 50 }]

/-- Decomposition of an accepted checkout form: an empty error list forces
every required field to be present, the phone (and, for GCash, the GCash
number) to match the mobile-number pattern, and a valid-ID URL to be
present for Cash on Delivery. -/
theorem validate_eq_nil_fields (f : CheckoutForm) (h : validate f = []) :
    f.firstName ≠ "" ∧ f.lastName ≠ "" ∧ f.email ≠ "" ∧ f.phone ≠ "" ∧
    f.address ≠ "" ∧ f.city ≠ "" ∧ f.zipCode ≠ "" ∧
    validatePhone f.phone = true ∧
    (f.paymentMethod = "gcash" → f.gcashNumber ≠ "" ∧ validateGCash f.gcashNumber = true) ∧
    (f.paymentMethod = "cod" → f.validIdUrl ≠ "") := by
  unfold validate at h
  simp only [List.append_eq_nil] at h
  obtain ⟨⟨⟨⟨⟨⟨⟨⟨h1, h2⟩, h3⟩, h4⟩, h5⟩, h6⟩, h7⟩, h8⟩, h9⟩ := h
  have hfn : f.firstName ≠ "" := by intro hc; simp [hc] at h1
  have hln : f.lastName ≠ "" := by intro hc; simp [hc] at h2
  have hem : f.email ≠ "" := by intro hc; simp [hc] at h3
  have hph : f.phone ≠ "" := by intro hc; simp [hc] at h4
  have had : f.address ≠ "" := by intro hc; simp [hc] at h5
  have hci : f.city ≠ "" := by intro hc; simp [hc] at h6
  have hzip : f.zipCode ≠ "" := by intro hc; simp [hc] at h7
  rw [if_neg hph] at h4
  have hphv : validatePhone f.phone = true := by
    cases hv : validatePhone f.phone with
    | true => rfl
    | false => simp [hv] at h4
  refine ⟨hfn, hln, hem, hph, had, hci, hzip, hphv, ?_, ?_⟩
  · intro hpm
    rw [if_pos hpm] at h8
    have hg : f.gcashNumber ≠ "" := by intro hc; simp [hc] at h8
    rw [if_neg hg] at h8
    refine ⟨hg, ?_⟩
    cases hv : validateGCash f.gcashNumber with
    | true => rfl
    | false => simp [hv] at h8
  · intro hpm hc
    rw [if_pos ⟨hpm, hc⟩] at h9
    simp at h9

/-- Claim C6: when checkout validation passes and both writes go through,
the write trace is exactly the order document followed, as a separate
write, by one notification document with type `new_order`, recipient role
`both`, `read` false and the id of the order document just created. -/
theorem checkout_new_order_notification
    (f : CheckoutForm) (cartItems : List CartItem) (userId : String)
    (subtotal shipping total : Int) (now : Nat) (newOrderId : String)
    (h : validate f = []) :
    ∃ od n,
      handleSubmit f cartItems userId subtotal shipping total now newOrderId true true =
        { success := true,
          writes := [WriteOp.orderDoc od, WriteOp.notificationDoc n],
          cartAfter := [],
          notificationAttempts := 1 } ∧
      n.type = "new_order" ∧ n.recipientRole = "both" ∧ n.read = false ∧
      n.orderId = newOrderId := by
  refine ⟨orderDataOf f cartItems userId subtotal shipping total now,
    newOrderNotificationDoc newOrderId
      (orderDataOf f cartItems userId subtotal shipping total now) now,
    ?_, rfl, rfl, rfl, rfl⟩
  simp [handleSubmit, h, createNewOrderNotification]

/-- Witness for C6 on a concrete accepted form. -/
theorem checkout_new_order_notification_witness :
    validate sampleForm = [] ∧
    ∃ od n,
      handleSubmit sampleForm sampleCart ("u1") 100 50 150 5 "ord9" true true =
        { success := true,
          writes := [WriteOp.orderDoc od, WriteOp.notificationDoc n],
          cartAfter := [],
          notificationAttempts := 1 } ∧
      n.type = "new_order" ∧ n.recipientRole = "both" ∧ n.read = false ∧
      n.orderId = "ord9" :=
  ⟨by decide,
   checkout_new_order_notification sampleForm sampleCart ("u1") 100 50 150 5 "ord9"
     (by decide)⟩

/-- Claim C7: when the order write succeeds but the notification write
fails, checkout still succeeds — the cart is cleared, the order document
remains the sole write, exactly one notification attempt was made, and no
notification document exists. -/
theorem checkout_notification_failure_tolerated
    (f : CheckoutForm) (cartItems : List CartItem) (userId : String)
    (subtotal shipping total : Int) (now : Nat) (newOrderId : String)
    (h : validate f = []) :
    handleSubmit f cartItems userId subtotal shipping total now newOrderId true false =
      { success := true,
        writes := [WriteOp.orderDoc (orderDataOf f cartItems userId subtotal shipping total now)],
        cartAfter := [],
        notificationAttempts := 1 } ∧
    ∀ n, WriteOp.notificationDoc n ∉
      (handleSubmit f cartItems userId subtotal shipping total now newOrderId true false).writes := by
  constructor
  · simp [handleSubmit, h, createNewOrderNotification]
  · intro n hn
    simp [handleSubmit, h, createNewOrderNotification] at hn

/-- Witness for C7 on a concrete accepted form. -/
theorem checkout_notification_failure_tolerated_witness :
    validate sampleForm = [] ∧
    (handleSubmit sampleForm sampleCart ("u1") 100 50 150 5 "ord9" true false =
      { success := true,
        writes := [WriteOp.orderDoc (orderDataOf sampleForm sampleCart ("u1") 100 50 150 5)],
        cartAfter := [],
        notificationAttempts := 1 } ∧
    ∀ n, WriteOp.notificationDoc n ∉
      (handleSubmit sampleForm sampleCart ("u1") 100 50 150 5 "ord9" true false).writes) :=
  ⟨by decide,
   checkout_notification_failure_tolerated sampleForm sampleCart ("u1") 100 50 150 5
     "ord9" (by decide)⟩

/-- Claim C10: an accepted checkout writes an order whose status is
`pending` and whose status history is the single system entry, and
acceptance forces all required fields, the mobile-number pattern for the
phone (and the GCash number under GCash payment), and a valid-ID URL under
Cash on Delivery. -/
theorem checkout_initial_status_and_validation
    (f : CheckoutForm) (cartItems : List CartItem) (userId : String)
    (subtotal shipping total : Int) (now : Nat) (newOrderId : String)
    (notifWriteOk : Bool)
    (h : validate f = []) :
    (∃ rest,
      (handleSubmit f cartItems userId subtotal shipping total now newOrderId true notifWriteOk).writes =
        WriteOp.orderDoc (orderDataOf f cartItems userId subtotal shipping total now) :: rest) ∧
    (orderDataOf f cartItems userId subtotal shipping total now).status = OrderStatus.pending ∧
    (orderDataOf f cartItems userId subtotal shipping total now).statusHistory =
      [{ status := OrderStatus.pending, timestamp := now, updatedBy := "system" }] ∧
    f.firstName ≠ "" ∧ f.lastName ≠ "" ∧ f.email ≠ "" ∧ f.phone ≠ "" ∧
    f.address ≠ "" ∧ f.city ≠ "" ∧ f.zipCode ≠ "" ∧
    validatePhone f.phone = true ∧
    (f.paymentMethod = "gcash" → f.gcashNumber ≠ "" ∧ validateGCash f.gcashNumber = true) ∧
    (f.paymentMethod = "cod" → f.validIdUrl ≠ "") := by
  refine ⟨?_, rfl, rfl, validate_eq_nil_fields f h⟩
  refine ⟨(createNewOrderNotification newOrderId
    (orderDataOf f cartItems userId subtotal shipping total now) now notifWriteOk).1.map
      WriteOp.notificationDoc, ?_⟩
  simp [handleSubmit, h]

/-- Witness for C10 on a concrete accepted form. -/
theorem checkout_initial_status_and_validation_witness :
    validate sampleForm = [] ∧
    ((∃ rest,
      (handleSubmit sampleForm sampleCart ("u1") 100 50 150 5 "ord9" true true).writes =
        WriteOp.orderDoc (orderDataOf sampleForm sampleCart ("u1") 100 50 150 5) :: rest) ∧
    (orderDataOf sampleForm sampleCart ("u1") 100 50 150 5).status = OrderStatus.pending ∧
    (orderDataOf sampleForm sampleCart ("u1") 100 50 150 5).statusHistory =
      [{ status := OrderStatus.pending, timestamp := 5, updatedBy := "system" }] ∧
    sampleForm.firstName ≠ "" ∧ sampleForm.lastName ≠ "" ∧ sampleForm.email ≠ "" ∧
    sampleForm.phone ≠ "" ∧ sampleForm.address ≠ "" ∧ sampleForm.city ≠ "" ∧
    sampleForm.zipCode ≠ "" ∧
    validatePhone sampleForm.phone = true ∧
    (sampleForm.paymentMethod = "gcash" →
      sampleForm.gcashNumber ≠ "" ∧ validateGCash sampleForm.gcashNumber = true) ∧
    (sampleForm.paymentMethod = "cod" → sampleForm.validIdUrl ≠ "")) :=
  ⟨by decide,
   checkout_initial_status_and_validation sampleForm sampleCart ("u1") 100 50 150 5
     "ord9" true (by decide)⟩

/-! ## Email verification

Embedding of `VerifyEmail.verifyEmail` and the token creation step of
`Registration.handleRegister`.  The `verificationTokens` and `users`
collections are association lists keyed by document id. -/

/-- A verification token document: `{userId, email, createdAt, expiresAt}`
as written by registration. -/
structure TokenData where
  userId : String
  email : String
  createdAt : Nat
  expiresAt : Nat
deriving DecidableEq

/-- The user document fields touched by the verification flow. -/
structure UserDoc where
  id : String
  email : String
  name : String
  role : String
  emailVerified : Bool
  verifiedAt : Option Nat
deriving DecidableEq

/-- The two collections the verification flow reads and writes. -/
structure Store where
  tokens : List (String × TokenData)
  users : List (String × UserDoc)
deriving DecidableEq

/-- `deleteDoc`: remove the document with the given id. -/
def eraseKey {α : Type} (key : String) (l : List (String × α)) :
    List (String × α) :=
  l.filter fun p => p.1 != key

/-- The `updateDoc` on the user referenced by the token: set
`emailVerified` to true and stamp `verifiedAt`. -/
def markVerified (userId : String) (now : Nat)
    (users : List (String × UserDoc)) : List (String × UserDoc) :=
  users.map fun p =>
    if p.1 = userId then
      (p.1, { p.2 with emailVerified := true, verifiedAt := some now })
    else p

/-- The three terminal UI states of the verification page. -/
inductive VerifyStatus where
  | loading
  | success
  | error
deriving DecidableEq

/-- The rendered outcome: status plus message. -/
structure VerifyResult where
  status : VerifyStatus
  message : String
deriving DecidableEq

/-- `VerifyEmail.verifyEmail`: no token in the URL is an error; an unknown
token is an error; a token whose stored expiry is strictly before the
current time is denied and the token document deleted, touching nothing
else; otherwise the referenced user is marked verified and the token
deleted.  A missing user document makes the `updateDoc` throw, which the
surrounding try/catch turns into a generic error with no state change. -/
def verifyEmail (token : Option String) (now : Nat) (st : Store) :
    VerifyResult × Store :=
  match token with
  | none =>
    ({ status := VerifyStatus.error,
       message := "Invalid verification link. No token provided." }, st)
  | some tok =>
    match st.tokens.lookup tok with
    | none =>
      ({ status := VerifyStatus.error,
         message := "Invalid or expired verification link." }, st)
    | some tokenData =>
      if tokenData.expiresAt < now then
        ({ status := VerifyStatus.error,
           message := "Verification link has expired. Please register again or request a new verification email." },
         { st with tokens := eraseKey tok st.tokens })
      else
        match st.users.lookup tokenData.userId with
        | none =>
          ({ status := VerifyStatus.error,
             message := "An error occurred while verifying your email. Please try again or contact support." },
           st)
        | some _ =>
          ({ status := VerifyStatus.success,
             message := "Email verified successfully! You can now log in to your account." },
           { st with
              tokens := eraseKey tok st.tokens,
              users := markVerified tokenData.userId now st.users })

/-- Looking a key up after `markVerified` returns the old document with
`emailVerified` set and `verifiedAt` stamped. -/
theorem lookup_markVerified (userId : String) (now : Nat)
    (users : List (String × UserDoc)) :
    (markVerified userId now users).lookup userId =
      (users.lookup userId).map
        (fun u => { u with emailVerified := true, verifiedAt := some now }) := by
  induction users with
  | nil => rfl
  | cons p rest ih =>
    obtain ⟨k, v⟩ := p
    by_cases hk : k = userId
    · subst hk
      simp only [markVerified, List.map_cons]
      simp [List.lookup]
    · have hb' : (userId == k) = false := beq_eq_false_iff_ne.mpr (Ne.symm hk)
      simp only [markVerified, List.map_cons]
      rw [if_neg hk]
      simp only [List.lookup, hb']
      exact ih

/-- A concrete verification token and store used by the witnesses. -/
def sampleToken : TokenData :=
  { userId := "u1", email := "ana@mail.com", createdAt := 100,
    expiresAt := 100 + 24 * 3600 * 1000 }

/-- A concrete user document used by the witnesses. -/
def sampleUser : UserDoc :=
  { id := "u1", email := "ana@mail.com", name := "Ana", role := "user",
    emailVerified := false, verifiedAt := none }

/-- A concrete store holding the sample token and user. -/
def sampleStore : Store :=
  { tokens := [("t1", sampleToken)], users := [("u1", sampleUser)] }

/-- Claim C4: when the token document exists but its stored expiry is
strictly before the current time, verification is denied with an error,
the users collection — hence the referenced emailVerified flag — is left
untouched, and the expired token document is deleted. -/
theorem verifyEmail_expired_denied
    (tok : String) (now : Nat) (st : Store) (tokenData : TokenData)
    (hlook : st.tokens.lookup tok = some tokenData)
    (hexp : tokenData.expiresAt < now) :
    (verifyEmail (some tok) now st).1.status = VerifyStatus.error ∧
    (verifyEmail (some tok) now st).2.users = st.users ∧
    (verifyEmail (some tok) now st).2.tokens = eraseKey tok st.tokens := by
  simp [verifyEmail, hlook, hexp]

/-- Witness for C4: the sample token one millisecond past its expiry. -/
theorem verifyEmail_expired_denied_witness :
    sampleStore.tokens.lookup ("t1") = some sampleToken ∧
    sampleToken.expiresAt < 100 + 24 * 3600 * 1000 + 1 ∧
    ((verifyEmail (some ("t1")) (100 + 24 * 3600 * 1000 + 1) sampleStore).1.status =
        VerifyStatus.error ∧
      (verifyEmail (some ("t1")) (100 + 24 * 3600 * 1000 + 1) sampleStore).2.users =
        sampleStore.users ∧
      (verifyEmail (some ("t1")) (100 + 24 * 3600 * 1000 + 1) sampleStore).2.tokens =
        eraseKey ("t1") sampleStore.tokens) :=
  ⟨by decide, by decide,
   verifyEmail_expired_denied ("t1") (100 + 24 * 3600 * 1000 + 1) sampleStore
     sampleToken (by decide) (by decide)⟩

/-- Claim C5: when the token document exists, is not past its expiry, and
its referenced user document exists, verification succeeds: the user ends
up with `emailVerified` true (and a `verifiedAt` stamp), and the token
document is deleted. -/
theorem verifyEmail_success
    (tok : String) (now : Nat) (st : Store) (tokenData : TokenData) (u : UserDoc)
    (hlook : st.tokens.lookup tok = some tokenData)
    (hexp : ¬ tokenData.expiresAt < now)
    (huser : st.users.lookup tokenData.userId = some u) :
    (verifyEmail (some tok) now st).1.status = VerifyStatus.success ∧
    (verifyEmail (some tok) now st).2.tokens = eraseKey tok st.tokens ∧
    (verifyEmail (some tok) now st).2.users.lookup tokenData.userId =
      some { u with emailVerified := true, verifiedAt := some now } := by
  simp [verifyEmail, hlook, hexp, huser, lookup_markVerified]

/-- Witness for C5: the sample token exactly at its expiry instant. -/
theorem verifyEmail_success_witness :
    sampleStore.tokens.lookup ("t1") = some sampleToken ∧
    ¬ sampleToken.expiresAt < 100 + 24 * 3600 * 1000 ∧
    sampleStore.users.lookup sampleToken.userId = some sampleUser ∧
    ((verifyEmail (some ("t1")) (100 + 24 * 3600 * 1000) sampleStore).1.status =
        VerifyStatus.success ∧
      (verifyEmail (some ("t1")) (100 + 24 * 3600 * 1000) sampleStore).2.tokens =
        eraseKey ("t1") sampleStore.tokens ∧
      (verifyEmail (some ("t1")) (100 + 24 * 3600 * 1000) sampleStore).2.users.lookup
          sampleToken.userId =
        some { sampleUser with
               emailVerified := true,
               verifiedAt := some (100 + 24 * 3600 * 1000) }) :=
  ⟨by decide, by decide, by decide,
   verifyEmail_success ("t1") (100 + 24 * 3600 * 1000) sampleStore sampleToken
     sampleUser (by decide) (by decide) (by decide)⟩

/-- One hour in epoch milliseconds. -/
def hourMs : Nat := 3600 * 1000

/-- The token creation step of `Registration.handleRegister`: the token
key is the new uid, the current epoch milliseconds and a random suffix
joined by underscores, and the stored document expires 24 hours after
creation (`expiresAt.setHours(expiresAt.getHours() + 24)` in a fixed-offset
timezone). -/
def makeVerificationToken (uid email rand : String) (now : Nat) :
    String × TokenData :=
  (uid ++ "_" ++ toString now ++ "_" ++ rand,
   { userId := uid, email := email, createdAt := now,
     expiresAt := now + 24 * hourMs })

/-- Claim C9: every verification token created at registration stores an
expiry exactly 24 hours after its creation time, and its key embeds the
new uid (the key is the uid followed by an underscore and more text). -/
theorem makeVerificationToken_spec (uid email rand : String) (now : Nat) :
    (makeVerificationToken uid email rand now).2.expiresAt =
      (makeVerificationToken uid email rand now).2.createdAt + 24 * hourMs ∧
    (makeVerificationToken uid email rand now).2.createdAt = now ∧
    ∃ rest, (makeVerificationToken uid email rand now).1 = uid ++ "_" ++ rest :=
  ⟨rfl, rfl, toString now ++ "_" ++ rand, by
    simp [makeVerificationToken, String.append_assoc]⟩

/-! ## Analytics aggregation

Embedding of the filter effect of `Analytics.tsx` (the `useEffect` running
on filter or order changes).  A stored creation date is decoded to its
`getMonth`/`getFullYear` components; `total` is numeric as declared by the
`Order` interface. -/

/-- The month and year components the analytics filter reads off an order
creation date (`getMonth` is zero-based, `getFullYear` a calendar year). -/
structure DateYM where
  month : Nat
  year : Nat
deriving DecidableEq

/-- An order as the analytics page consumes it: its total and the decoded
creation date, `none` when the stored date is absent. -/
structure AOrder where
  id : String
  total : Int
  createdAt : Option DateYM
deriving DecidableEq

/-- The month/year predicate of the filter effect: an order with no date
never matches; otherwise each selected component must agree (`none` is the
`all` dropdown choice). -/
def matchesFilter (filterMonth filterYear : Option Nat) (o : AOrder) : Bool :=
  match o.createdAt with
  | none => false
  | some d =>
    (match filterMonth with
     | none => true
     | some m => d.month == m) &&
    (match filterYear with
     | none => true
     | some y => d.year == y)

/-- The aggregated order list: all fetched orders when both dropdowns are
on `all`, otherwise the fetched orders matching the filter. -/
def filterOrders (allOrders : List AOrder) (filterMonth filterYear : Option Nat) :
    List AOrder :=
  if filterMonth.isNone && filterYear.isNone then allOrders
  else allOrders.filter (matchesFilter filterMonth filterYear)

/-- The two statistics the filter effect recomputes. -/
structure AnalyticsStats where
  totalRevenue : Int
  totalOrders : Nat
deriving DecidableEq

/-- The filter effect of the analytics page: with no fetched orders it
leaves the previous statistics untouched (early return); otherwise it sums
`total` over the aggregated orders and counts them. -/
def updateStats (allOrders : List AOrder) (filterMonth filterYear : Option Nat)
    (prev : AnalyticsStats) : AnalyticsStats :=
  if allOrders.isEmpty then prev
  else
    let filtered := filterOrders allOrders filterMonth filterYear
    { totalRevenue := filtered.foldl (fun s o => s + o.total) 0,
      totalOrders := filtered.length }

/-- Folding the revenue accumulator equals adding the sum of the mapped
totals. -/
theorem foldl_add_total (l : List AOrder) (acc : Int) :
    l.foldl (fun s o => s + o.total) acc = acc + (l.map AOrder.total).sum := by
  induction l generalizing acc with
  | nil => simp
  | cons a t ih => simp [ih, add_assoc]

/-- Claim C8: once orders are fetched, the recomputed `totalRevenue` is the
sum of the `total` field over the aggregated orders and `totalOrders` is
their count; and when a month or year filter is selected the aggregated
orders are exactly the fetched orders whose creation date matches every
selected component. -/
theorem analytics_aggregation
    (allOrders : List AOrder) (filterMonth filterYear : Option Nat)
    (prev : AnalyticsStats) (h : allOrders ≠ []) :
    (updateStats allOrders filterMonth filterYear prev).totalRevenue =
      ((filterOrders allOrders filterMonth filterYear).map AOrder.total).sum ∧
    (updateStats allOrders filterMonth filterYear prev).totalOrders =
      (filterOrders allOrders filterMonth filterYear).length ∧
    ((filterMonth.isSome ∨ filterYear.isSome) →
      ∀ o, o ∈ filterOrders allOrders filterMonth filterYear ↔
        o ∈ allOrders ∧ matchesFilter filterMonth filterYear o = true) := by
  have hne : allOrders.isEmpty = false := by
    cases allOrders with
    | nil => exact absurd rfl h
    | cons a l => rfl
  refine ⟨?_, ?_, ?_⟩
  · simp only [updateStats, hne, Bool.false_eq_true, if_false]
    rw [foldl_add_total]
    simp
  · simp only [updateStats, hne, Bool.false_eq_true, if_false]
  · intro hsel o
    have hcond : (filterMonth.isNone && filterYear.isNone) = false := by
      rcases hsel with hm | hy
      · rcases filterMonth with _ | m
        · cases hm
        · rfl
      · rcases filterYear with _ | y
        · cases hy
        · rcases filterMonth with _ | m <;> rfl
    unfold filterOrders
    rw [hcond]
    simp [List.mem_filter]

/-- A concrete fetched order list for the C8 witness: one order inside the
selected month and year, one outside, one without a date. -/
def sampleAnalyticsOrders : List AOrder :=
  [{ id := "a1", total := 100, createdAt := some { month := 4, year := 2025 } },
   { id := "a2", total := 70, createdAt := some { month := 6, year := 2024 } },
   { id := "a3", total := 9, createdAt := none }]

/-- Witness for C8 on the concrete order list with month 4 selected. -/
theorem analytics_aggregation_witness :
    sampleAnalyticsOrders ≠ [] ∧
    ((updateStats sampleAnalyticsOrders (some 4) none
        { totalRevenue := 0, totalOrders := 0 }).totalRevenue =
      ((filterOrders sampleAnalyticsOrders (some 4) none).map AOrder.total).sum ∧
    (updateStats sampleAnalyticsOrders (some 4) none
        { totalRevenue := 0, totalOrders := 0 }).totalOrders =
      (filterOrders sampleAnalyticsOrders (some 4) none).length ∧
    (((some 4 : Option Nat).isSome ∨ (none : Option Nat).isSome) →
      ∀ o, o ∈ filterOrders sampleAnalyticsOrders (some 4) none ↔
        o ∈ sampleAnalyticsOrders ∧ matchesFilter (some 4) none o = true)) :=
  ⟨by decide,
   analytics_aggregation sampleAnalyticsOrders (some 4) none
     { totalRevenue := 0, totalOrders := 0 } (by decide)⟩

end GDS
